/-
Verification of the typapp document-analysis core.

Shallow embedding of `src/server/services/documentAnalyzer.js` (the
`DocumentAnalyzer` class: `detectLanguage`, `analyzeSpelling`,
`analyzeGrammar`, `analyzeStyle`, `analyzeDocument`) and of the server
facade in the Express entry point (`analyzeDocument` helper with its
catch-all fallback and the simplified `detectLanguage`).

Strings are modelled as Lean `String` (a list of Unicode characters).
JavaScript string operations are embedded as follows:
- `text.toLowerCase()` : character-wise lowercasing covering ASCII and
  every Latin letter occurring in the analyzer's pattern tables and
  character classes, including the JavaScript special case
  `'İ'.toLowerCase() = "i" + U+0307`; characters outside that repertoire
  map to themselves.
- `text.split(/\s+/)` : split at maximal runs of JavaScript whitespace,
  keeping empty leading/trailing pieces exactly as the JS engine does.
- `text.match(charClassRegex)` for a NON-global single-character-class
  regex: the engine returns the first matching character (an array of
  length 1) or null; modelled by `firstCharIn`.
- a global regex's full match list and `String.prototype.replace` with a
  global regex are operations of the host regex engine (a third-party
  library, not code of this repository); grammar and style rules carry
  them as function fields (`matchAll`, `replaceAll`), and the checker
  loops are translated faithfully around them.
-/

import Mathlib

set_option maxRecDepth 4000

/-! ## Character classes of `detectLanguage` (documentAnalyzer.js lines 108-110) -/

/-- The Turkish character class `[çğıöşüÇĞIİÖŞÜ]` (note: it contains ASCII `I`). -/
def turkishChars : List Char :=
  ['ç', 'ğ', 'ı', 'ö', 'ş', 'ü', 'Ç', 'Ğ', 'I', 'İ', 'Ö', 'Ş', 'Ü']

/-- The German character class `[äöüßÄÖÜ]`. -/
def germanChars : List Char :=
  ['ä', 'ö', 'ü', 'ß', 'Ä', 'Ö', 'Ü']

/-- The French character class `[àâäéèêëïîôöùûüÿçÀÂÄÉÈÊËÏÎÔÖÙÛÜŸÇ]`. -/
def frenchChars : List Char :=
  ['à', 'â', 'ä', 'é', 'è', 'ê', 'ë', 'ï', 'î', 'ô', 'ö', 'ù', 'û', 'ü', 'ÿ', 'ç',
   'À', 'Â', 'Ä', 'É', 'È', 'Ê', 'Ë', 'Ï', 'Î', 'Ô', 'Ö', 'Ù', 'Û', 'Ü', 'Ÿ', 'Ç']

/-! ## Common-word lists (documentAnalyzer.js lines 118-120) -/

def turkishWords : List String :=
  ["ve", "bir", "bu", "da", "de", "ile", "için", "olan", "olarak"]

def germanWords : List String :=
  ["und", "der", "die", "das", "in", "den", "von", "mit", "zu", "auf"]

def frenchWords : List String :=
  ["et", "le", "la", "les", "de", "du", "des", "un", "une", "pour"]

/-! ## JavaScript string primitives -/

/-- Uppercase/lowercase pairs for the non-ASCII Latin letters appearing in the
analyzer's character classes and tables (simple one-to-one case mappings). -/
def latinUpperLower : List (Char × Char) :=
  [('Ç', 'ç'), ('Ğ', 'ğ'), ('Ö', 'ö'), ('Ş', 'ş'), ('Ü', 'ü'), ('Ä', 'ä'),
   ('À', 'à'), ('Â', 'â'), ('É', 'é'), ('È', 'è'), ('Ê', 'ê'), ('Ë', 'ë'),
   ('Ï', 'ï'), ('Î', 'î'), ('Ô', 'ô'), ('Ù', 'ù'), ('Û', 'û'), ('Ÿ', 'ÿ')]

/-- One character of `String.prototype.toLowerCase`: ASCII letters map to ASCII,
`İ` (U+0130) maps to the two-character string `i` + combining dot above
(JavaScript's special full lowercase mapping), the other Latin uppercase
letters of the analyzer's repertoire map by their simple mapping, and any
other character maps to itself. -/
def jsCharToLower (c : Char) : List Char :=
  if c = 'İ' then ['i', '̇']
  else if 'A' ≤ c ∧ c ≤ 'Z' then [Char.ofNat (c.toNat + 32)]
  else
    match latinUpperLower.find? (fun p => p.1 = c) with
    | some p => [p.2]
    | none => [c]

/-- `text.toLowerCase()`. -/
def jsLowerString (s : String) : String :=
  ⟨s.data.flatMap jsCharToLower⟩

/-- JavaScript's `\s` whitespace class (the characters relevant here plus the
full ECMAScript WhiteSpace/LineTerminator set). -/
def isJsSpace (c : Char) : Bool :=
  c = ' ' ∨ c = '\t' ∨ c = '\n' ∨ c = '\x0b' ∨ c = '\x0c' ∨ c = '\r' ∨
  c = '\u00a0' ∨ c = '\u1680' ∨ ('\u2000' ≤ c ∧ c ≤ '\u200a') ∨
  c = '\u2028' ∨ c = '\u2029' ∨ c = '\u202f' ∨ c = '\u205f' ∨
  c = '\u3000' ∨ c = '\ufeff'

/-- Worker for `text.split(/\s+/)`: a separator is a maximal run of whitespace;
the flag records whether the previous character continued a separator run. -/
def splitWsAux : List Char → List Char → Bool → List String
  | [], acc, _ => [⟨acc.reverse⟩]
  | c :: cs, acc, inRun =>
    if isJsSpace c then
      if inRun then splitWsAux cs acc true
      else ⟨acc.reverse⟩ :: splitWsAux cs [] true
    else splitWsAux cs (c :: acc) false

/-- `text.split(/\s+/)` (e.g. `"" ↦ [""]`, `" a" ↦ ["", "a"]`). -/
def jsSplitWs (s : String) : List String :=
  splitWsAux s.data [] false

/-- The token list `content.toLowerCase().split(/\s+/)` used both by
`detectLanguage` (line 122) and `analyzeSpelling` (line 146). -/
def jsWords (content : String) : List String :=
  jsSplitWs (jsLowerString content)

/-- `text.match(re)` for a non-global character-class regex: the first
character of `text` belonging to the class, if any. -/
def firstCharIn (cls : List Char) : List Char → Option Char
  | [] => none
  | c :: cs => if cls.contains c then some c else firstCharIn cls cs

/-- `(text.match(re) || []).length` for a non-global character-class regex
with no capture groups: 1 when some character matches, otherwise 0
(lines 113-115; the regexes carry no `g` flag, so the result array of a
successful match has length 1). -/
def charClassMatchCount (cls : List Char) (s : String) : Nat :=
  match firstCharIn cls s.data with
  | some _ => 1
  | none => 0

/-! ## Language scores and `detectLanguage` (documentAnalyzer.js lines 106-142) -/

/-- `scores.turkish = turkishCount * 2 + turkishWordCount` (line 129). -/
def turkishScore (t : String) : Nat :=
  charClassMatchCount turkishChars t * 2 +
    ((jsWords t).filter (fun w => turkishWords.contains w)).length

/-- `scores.german = germanCount * 2 + germanWordCount` (line 130). -/
def germanScore (t : String) : Nat :=
  charClassMatchCount germanChars t * 2 +
    ((jsWords t).filter (fun w => germanWords.contains w)).length

/-- `scores.french = frenchCount * 2 + frenchWordCount` (line 131). -/
def frenchScore (t : String) : Nat :=
  charClassMatchCount frenchChars t * 2 +
    ((jsWords t).filter (fun w => frenchWords.contains w)).length

/-- `scores.english = 0` (line 132). -/
def englishScore (_t : String) : Nat := 0

/-- `Object.keys(scores).reduce((a, b) => scores[a] > scores[b] ? a : b)`,
with the key/score lookups fused into (key, score) pairs; the accumulator
keeps `a` only when its score is strictly greater than `b`'s. -/
def jsReduceMaxKey (a : String × Nat) : List (String × Nat) → String × Nat
  | [] => a
  | b :: rest => jsReduceMaxKey (if a.2 > b.2 then a else b) rest

/-- `detectLanguage` (lines 106-142): return `"english"` when every score is
zero (`scores.english` is the constant 0, so only the other three matter),
otherwise reduce over the keys in declaration order
turkish, german, french, english. -/
def detectLanguage (t : String) : String :=
  if turkishScore t = 0 ∧ germanScore t = 0 ∧ frenchScore t = 0 then "english"
  else
    (jsReduceMaxKey ("turkish", turkishScore t)
      [("german", germanScore t), ("french", frenchScore t),
       ("english", englishScore t)]).1

/-! ## Finding and result shapes (documentAnalyzer.js lines 88-94) -/

/-- One entry of `analysis.spellingErrors`. -/
structure SpellingError where
  original : String
  corrected : String
deriving Repr, DecidableEq

/-- One entry of `analysis.grammarErrors`. -/
structure GrammarError where
  original : String
  explanation : String
  corrected : String
deriving Repr, DecidableEq

/-- One entry of `analysis.styleSuggestions`. -/
structure StyleSuggestion where
  original : String
  suggestion : String
deriving Repr, DecidableEq

/-- The `analysis` object assembled by `analyzeDocument` (lines 88-94). -/
structure AnalysisResult where
  documentTitle : String
  language : String
  spellingErrors : List SpellingError
  grammarErrors : List GrammarError
  styleSuggestions : List StyleSuggestion
deriving Repr, DecidableEq

/-! ## Spelling tables (documentAnalyzer.js lines 12-19, 34-40, 50-55, 65-69)

Each table is the `Object.entries` sequence of the source's object literal:
insertion order, with a duplicated key collapsed onto its first position
(the German literal repeats the key `daß`; JavaScript keeps the first
position and the last value, both of which are `dass` here). -/

def turkishSpelling : List (String × String) :=
  [("yapıcaz", "yapacağız"), ("gercekleşicek", "gerçekleşecek"),
   ("katılcakmısın", "katılacak mısın"), ("gelicek", "gelecek"),
   ("gidecek", "gidecek"), ("olacak", "olacak")]

def englishSpelling : List (String × String) :=
  [("recieve", "receive"), ("seperate", "separate"), ("occured", "occurred"),
   ("begining", "beginning"), ("definately", "definitely")]

def germanSpelling : List (String × String) :=
  [("dass", "dass"), ("daß", "dass"), ("muß", "muss")]

def frenchSpelling : List (String × String) :=
  [("acceuillir", "accueillir"), ("appartement", "appartement"),
   ("bienvenu", "bienvenue")]

/-- `this.languagePatterns[language]?.spellingPatterns || {}` (line 145). -/
def spellingPatternsOf (language : String) : List (String × String) :=
  if language = "turkish" then turkishSpelling
  else if language = "english" then englishSpelling
  else if language = "german" then germanSpelling
  else if language = "french" then frenchSpelling
  else []

/-- `analyzeSpelling` (lines 144-156): for each (incorrect, correct) entry of
the table in declaration order, push one finding when `incorrect.toLowerCase()`
occurs among the lowercase whitespace-split tokens of the content. -/
def analyzeSpelling (content : String) : List (String × String) → List SpellingError
  | [] => []
  | p :: ps =>
    if (jsWords content).contains (jsLowerString p.1) then
      ⟨p.1, p.2⟩ :: analyzeSpelling content ps
    else
      analyzeSpelling content ps

/-! ## Grammar checker (documentAnalyzer.js lines 158-174)

A grammar rule's regex operations are performed by the host regex engine;
a rule carries them as functions: `matchAll content` is
`content.match(rule.pattern)` for the `g`-flagged pattern (`[]` when the
engine returns `null`, otherwise the non-empty list of matched substrings),
and `replaceAll content` is `content.replace(rule.pattern, rule.replacement)`. -/

structure GrammarRule where
  matchAll : String → List String
  explanation : String
  replaceAll : String → String

/-- `analyzeGrammar` (lines 158-174): for each rule in declared order, for
every match of the rule's pattern, push one finding whose `corrected` is the
whole content rewritten by the rule's global replacement. -/
def analyzeGrammar (content : String) : List GrammarRule → List GrammarError
  | [] => []
  | r :: rs =>
    (r.matchAll content).map (fun m => ⟨m, r.explanation, r.replaceAll content⟩)
      ++ analyzeGrammar content rs

/-! ## Style checker (documentAnalyzer.js lines 176-223) -/

/-- A style rule: `matchAll content` is `content.match(rule.pattern)` for the
`g`-flagged pattern (`[]` for `null`), and `suggestion` its fixed text. -/
structure StyleRule where
  matchAll : String → List String
  suggestion : String

/-- `analyzeStyle` (lines 213-222): for each rule of the detected language's
style list, when the pattern matches, push one finding whose `original` is
`content.match(pattern)[0]`, the first match. -/
def analyzeStyle (content : String) : List StyleRule → List StyleSuggestion
  | [] => []
  | r :: rs =>
    match r.matchAll content with
    | [] => analyzeStyle content rs
    | m :: _ => ⟨m, r.suggestion⟩ :: analyzeStyle content rs

/-! ## Analyzer facade (documentAnalyzer.js lines 81-104) -/

/-- The per-language configuration consulted by the facade: the language's
entry of `this.languagePatterns` together with the language's entry of
`analyzeStyle`'s local `stylePatterns` table (both tables are keyed by the
same language string in the source). -/
structure LangTables where
  spellingPatterns : List (String × String)
  grammarPatterns : List GrammarRule
  stylePatterns : List StyleRule

/-- `analyzeDocument` (lines 81-104), parametric in the pattern configuration
(`cfg language = none` models `this.languagePatterns[language]` being absent,
in which case the three checkers are skipped and the lists stay empty). -/
def analyzeDocumentWith (cfg : String → Option LangTables)
    (title content : String) : AnalysisResult :=
  let language := detectLanguage content
  match cfg language with
  | none => ⟨title, language, [], [], []⟩
  | some t =>
    ⟨title, language,
      analyzeSpelling content t.spellingPatterns,
      analyzeGrammar content t.grammarPatterns,
      analyzeStyle content t.stylePatterns⟩

/-! ## Server facade (Express entry point, `analyzeDocument` helper and the
simplified `detectLanguage`) -/

/-- The request `{ title, content }`. -/
structure DocumentInput where
  title : String
  content : String

/-- The server's simplified `detectLanguage`: presence tests of the same three
character classes, in order Turkish, German, French, else English. -/
def simpleDetectLanguage (text : String) : String :=
  if (firstCharIn turkishChars text.data).isSome then "Turkish"
  else if (firstCharIn germanChars text.data).isSome then "German"
  else if (firstCharIn frenchChars text.data).isSome then "French"
  else "English"

/-- The server's `analyzeDocument` helper: call the analyzer (modelled as an
arbitrary possibly-throwing computation `inner`); when it throws, return the
basic fallback result with the document's title, the simplified language,
and three empty finding lists. -/
def analyzeDocumentSafe (inner : DocumentInput → Except String AnalysisResult)
    (doc : DocumentInput) : AnalysisResult :=
  match inner doc with
  | .ok r => r
  | .error _ =>
    ⟨doc.title, simpleDetectLanguage doc.content, [], [], []⟩

/-- Score formula exactly as the specification words it, for comparison with
the source's computation: 2 × (number of characters of the text belonging to
the language's diacritic set) + (number of lowercase whitespace-split tokens
exactly matching the language's common-word list). -/
def specScore (cls : List Char) (common : List String) (t : String) : Nat :=
  2 * (t.data.filter (fun c => cls.contains c)).length +
    ((jsWords t).filter (fun w => common.contains w)).length

/-! ## Helper lemmas -/

theorem firstCharIn_isSome (cls : List Char) (l : List Char) :
    (firstCharIn cls l).isSome = l.any (fun c => cls.contains c) := by
  induction l with
  | nil => rfl
  | cons c cs ih =>
    by_cases h : cls.contains c = true
    · simp only [firstCharIn, List.any_cons, h]
      simp
    · have h' : cls.contains c = false := by simpa using h
      simp only [firstCharIn, List.any_cons, h']
      simpa using ih

theorem charClassMatchCount_eq (cls : List Char) (s : String) :
    charClassMatchCount cls s =
      if s.data.any (fun c => cls.contains c) then 1 else 0 := by
  unfold charClassMatchCount
  have h := (firstCharIn_isSome cls s.data).symm
  rcases hfc : firstCharIn cls s.data with _ | c <;> rw [hfc] at h <;>
    simp only [Option.isSome_none, Option.isSome_some] at h <;> rw [h] <;> rfl

theorem charClassMatchCount_mul_two (cls : List Char) (s : String) :
    charClassMatchCount cls s * 2 =
      if s.data.any (fun c => cls.contains c) then 2 else 0 := by
  rw [charClassMatchCount_eq]
  split_ifs <;> rfl

/-! ## Claim C1 -/

/-- C1, counterexample: the claim says the Turkish score of a text is 2 × the
number of Turkish diacritic characters plus the common-word count, which
would give 4 for the text `"çç"`; the source's non-global regex match caps
the character term at one occurrence, so the computed score is 2. -/
theorem detect_score_spec_mismatch :
    specScore turkishChars turkishWords "çç" = 4 ∧
    turkishScore "çç" = 2 ∧
    turkishScore "çç" ≠ specScore turkishChars turkishWords "çç" := by
  refine ⟨rfl, rfl, by decide⟩

/-- C1, amended: for every input text, each non-English language's score is
2 × (1 if the text contains at least one character of that language's
diacritic set, else 0) plus the number of lowercase whitespace-split tokens
exactly matching that language's common-word list, and the English score is
always 0. -/
theorem detect_score_characterization (t : String) :
    (turkishScore t =
      (if t.data.any (fun c => turkishChars.contains c) then 2 else 0) +
        ((jsWords t).filter (fun w => turkishWords.contains w)).length) ∧
    (germanScore t =
      (if t.data.any (fun c => germanChars.contains c) then 2 else 0) +
        ((jsWords t).filter (fun w => germanWords.contains w)).length) ∧
    (frenchScore t =
      (if t.data.any (fun c => frenchChars.contains c) then 2 else 0) +
        ((jsWords t).filter (fun w => frenchWords.contains w)).length) ∧
    englishScore t = 0 := by
  refine ⟨?_, ?_, ?_, rfl⟩
  · unfold turkishScore
    rw [charClassMatchCount_mul_two]
  · unfold germanScore
    rw [charClassMatchCount_mul_two]
  · unfold frenchScore
    rw [charClassMatchCount_mul_two]

/-! ## Claim C6 -/

/-- C6: for the content `"recieve and seperate"` the detected language is
English and the spelling findings are exactly
`recieve → receive` and `seperate → separate`, in that order. -/
theorem analyze_recieve_seperate :
    detectLanguage "recieve and seperate" = "english" ∧
    analyzeSpelling "recieve and seperate" (spellingPatternsOf "english") =
      [⟨"recieve", "receive"⟩, ⟨"seperate", "separate"⟩] := by
  refine ⟨rfl, rfl⟩

/-! ## Claim C7 -/

/-- C7: each entry of a spelling table produces at most one finding however
often its token occurs — the findings list is a sublist of the table (one
optional finding per entry, in table order); in particular a misspelling
repeated three times yields exactly one finding. -/
theorem analyzeSpelling_at_most_one_per_entry :
    (∀ (content : String) (tbl : List (String × String)),
      (analyzeSpelling content tbl).Sublist
        (tbl.map (fun p => SpellingError.mk p.1 p.2))) ∧
    analyzeSpelling "recieve recieve recieve" englishSpelling =
      [⟨"recieve", "receive"⟩] := by
  constructor
  · intro content tbl
    induction tbl with
    | nil => simp [analyzeSpelling]
    | cons p ps ih =>
      by_cases h : (jsWords content).contains (jsLowerString p.1) = true
      · simp only [analyzeSpelling, if_pos h, List.map_cons]
        exact List.Sublist.cons₂ _ ih
      · simp only [analyzeSpelling, if_neg h, List.map_cons]
        exact List.Sublist.cons _ ih
  · rfl

/-! ## Claim C2 -/

/-- C2: the grammar checker emits, per rule in declared order, exactly one
finding per match of the rule's pattern, with `original` the matched
substring, `explanation` the rule's fixed text and `corrected` the entire
content rewritten by the rule's global replacement; a rule matching twice
yields exactly two findings with identical `corrected` fields. -/
theorem analyzeGrammar_per_match (content : String) (rules : List GrammarRule) :
    (analyzeGrammar content rules =
      rules.flatMap (fun r => (r.matchAll content).map
        (fun m => GrammarError.mk m r.explanation (r.replaceAll content)))) ∧
    (∀ (r : GrammarRule) (m1 m2 : String), r.matchAll content = [m1, m2] →
      analyzeGrammar content [r] =
        [⟨m1, r.explanation, r.replaceAll content⟩,
         ⟨m2, r.explanation, r.replaceAll content⟩]) := by
  constructor
  · induction rules with
    | nil => rfl
    | cons r rs ih => simp [analyzeGrammar, ih, List.flatMap_cons]
  · intro r m1 m2 h
    simp [analyzeGrammar, h]

/-- A concrete grammar rule used to exercise `analyzeGrammar_per_match`:
its pattern matches the content `"abab"` twice (both matches `"ab"`), and
its global replacement appends a marker to the whole content. -/
def demoRule : GrammarRule :=
  ⟨fun _ => ["ab", "ab"], "demo", fun s => s ++ "X"⟩

/-- Witness for `analyzeGrammar_per_match`: on `"abab"` with a rule matching
twice, exactly two findings are produced and their `corrected` fields are the
same full-document rewrite. -/
theorem analyzeGrammar_per_match_witness :
    analyzeGrammar "abab" [demoRule] =
      [⟨"ab", "demo", "ababX"⟩, ⟨"ab", "demo", "ababX"⟩] := by
  have h := (analyzeGrammar_per_match "abab" [demoRule]).2 demoRule "ab" "ab" rfl
  simpa [demoRule] using h

/-! ## Claim C8 -/

/-- C8: the style checker emits at most one finding per style rule (the
findings list arises from one optional finding per rule, so its length never
exceeds the number of rules), and a finding's `original` is the first match
of its rule's pattern even when the phrase occurs several times. -/
theorem analyzeStyle_first_match_only (content : String) (rules : List StyleRule) :
    (analyzeStyle content rules =
      rules.filterMap (fun r =>
        match r.matchAll content with
        | [] => none
        | m :: _ => some (StyleSuggestion.mk m r.suggestion))) ∧
    (analyzeStyle content rules).length ≤ rules.length := by
  have heq : analyzeStyle content rules =
      rules.filterMap (fun r =>
        match r.matchAll content with
        | [] => none
        | m :: _ => some (StyleSuggestion.mk m r.suggestion)) := by
    induction rules with
    | nil => rfl
    | cons r rs ih =>
      rcases h : r.matchAll content with _ | ⟨m, ms⟩ <;>
        simp [analyzeStyle, h, List.filterMap_cons, ih]
  refine ⟨heq, ?_⟩
  rw [heq]
  calc (rules.filterMap _).length ≤ rules.length := List.length_filterMap_le _ _

/-! ## Claim C3 -/

/-- C3: the server facade never propagates an exception — it always returns a
result, forwarding the analyzer's result on success, and when the analyzer
throws it returns a result carrying the request's title, the best-effort
(simplified) language, and three empty finding lists. -/
theorem analyzeDocumentSafe_no_throw
    (inner : DocumentInput → Except String AnalysisResult) (doc : DocumentInput) :
    (∀ r, inner doc = .ok r → analyzeDocumentSafe inner doc = r) ∧
    (∀ e, inner doc = .error e →
      analyzeDocumentSafe inner doc =
        ⟨doc.title, simpleDetectLanguage doc.content, [], [], []⟩) := by
  constructor <;> intro x h <;> simp [analyzeDocumentSafe, h]

/-- An analyzer that always throws, used to exercise the facade fallback. -/
def throwingAnalyzer : DocumentInput → Except String AnalysisResult :=
  fun _ => .error "analysis failed"

/-- Witness for `analyzeDocumentSafe_no_throw`: with a throwing analyzer the
caller still receives the all-empty fallback result. -/
theorem analyzeDocumentSafe_no_throw_witness :
    analyzeDocumentSafe throwingAnalyzer ⟨"T", "hello"⟩ =
      ⟨"T", "English", [], [], []⟩ := by
  have h := (analyzeDocumentSafe_no_throw throwingAnalyzer ⟨"T", "hello"⟩).2
    "analysis failed" rfl
  rw [h]
  rfl

/-! ## Claim C4 -/

/-- C4, counterexample: in `"ğ ß"` turkish and german tie at the highest
score 2 (french and english at 0), yet the detector returns `"german"`, not
the first-declared tied language `"turkish"`. -/
theorem detect_tie_first_declared_false :
    turkishScore "ğ ß" = 2 ∧ germanScore "ğ ß" = 2 ∧
    frenchScore "ğ ß" = 0 ∧ englishScore "ğ ß" = 0 ∧
    detectLanguage "ğ ß" = "german" ∧ detectLanguage "ğ ß" ≠ "turkish" := by
  refine ⟨rfl, rfl, rfl, rfl, rfl, by decide⟩

/-- C4, amended: when two or more languages tie for the highest score `m`
(and not all scores are zero, so the always-zero English score is not among
the tied), the detector returns the LAST-declared of the tied languages in
the score table's declaration order turkish, german, french, english — the
reduce keeps the incumbent only on a strictly greater score, so later tied
keys win. -/
theorem detect_tie_last_declared (t : String) (m : Nat)
    (hT : turkishScore t ≤ m) (hG : germanScore t ≤ m) (hF : frenchScore t ≤ m)
    (hpos : 0 < m)
    (htie : (turkishScore t = m ∧ germanScore t = m) ∨
            (turkishScore t = m ∧ frenchScore t = m) ∨
            (germanScore t = m ∧ frenchScore t = m)) :
    detectLanguage t =
      if frenchScore t = m then "french"
      else if germanScore t = m then "german"
      else "turkish" := by
  have h0 : ¬(turkishScore t = 0 ∧ germanScore t = 0 ∧ frenchScore t = 0) := by
    rcases htie with ⟨h1, h2⟩ | ⟨h1, h2⟩ | ⟨h1, h2⟩ <;> omega
  unfold detectLanguage
  rw [if_neg h0]
  simp only [jsReduceMaxKey, englishScore, gt_iff_lt]
  rcases htie with ⟨h1, h2⟩ | ⟨h1, h2⟩ | ⟨h1, h2⟩ <;>
    split_ifs <;> simp only [] at * <;> first | rfl | omega

/-- Witness for `detect_tie_last_declared` at `"ğ ß"` (turkish and german
tied at 2): the last-declared tied language, german, is returned. -/
theorem detect_tie_last_declared_witness :
    detectLanguage "ğ ß" = "german" := by
  have h := detect_tie_last_declared "ğ ß" 2 (by decide) (by decide) (by decide)
    (by decide) (Or.inl ⟨by decide, by decide⟩)
  rw [h]
  decide

/-! ## Claim C5 -/

/-- C5, counterexample: `"ğ und und und"` contains a Turkish diacritic and no
German or French diacritic characters, yet the three occurrences of the
German common word `und` outscore the single diacritic (3 against 2) and the
detector returns `"german"`. -/
theorem detect_turkish_diacritic_false :
    ("ğ und und und".data.any (fun c => turkishChars.contains c)) = true ∧
    ("ğ und und und".data.any (fun c => germanChars.contains c)) = false ∧
    ("ğ und und und".data.any (fun c => frenchChars.contains c)) = false ∧
    detectLanguage "ğ und und und" = "german" ∧
    detectLanguage "ğ und und und" ≠ "turkish" := by
  refine ⟨rfl, rfl, rfl, rfl, by decide⟩

/-- C5, amended: for every text containing at least one Turkish diacritic
character, no German or French diacritic characters, and none of the German
or French common words among its lowercase whitespace-split tokens, the
detected language is Turkish. -/
theorem detect_turkish_diacritic (t : String)
    (hTR : t.data.any (fun c => turkishChars.contains c) = true)
    (hDE : t.data.any (fun c => germanChars.contains c) = false)
    (hFR : t.data.any (fun c => frenchChars.contains c) = false)
    (hdw : ((jsWords t).filter (fun w => germanWords.contains w)).length = 0)
    (hfw : ((jsWords t).filter (fun w => frenchWords.contains w)).length = 0) :
    detectLanguage t = "turkish" := by
  have hsT : turkishScore t = 2 + ((jsWords t).filter
      (fun w => turkishWords.contains w)).length := by
    unfold turkishScore
    rw [charClassMatchCount_mul_two, hTR]
    simp
  have hsG : germanScore t = 0 := by
    unfold germanScore
    rw [charClassMatchCount_mul_two, hDE, hdw]
    simp
  have hsF : frenchScore t = 0 := by
    unfold frenchScore
    rw [charClassMatchCount_mul_two, hFR, hfw]
    simp
  unfold detectLanguage
  rw [if_neg (by omega)]
  simp only [jsReduceMaxKey, englishScore, gt_iff_lt]
  rw [hsT, hsG, hsF]
  split_ifs <;> simp only [] at * <;> first | rfl | omega

/-- Witness for `detect_turkish_diacritic`: the single-character text `"ğ"`
satisfies all hypotheses and is detected as Turkish. -/
theorem detect_turkish_diacritic_witness :
    detectLanguage "ğ" = "turkish" :=
  detect_turkish_diacritic "ğ" (by decide) (by decide) (by decide)
    (by decide) (by decide)

/-! ## Claim C9 -/

/-- C9: the result's `language` field is the detected language, and the whole
result depends only on that language's pattern tables — two configurations
agreeing on the detected language's tables yield identical results, so no
other language's tables are consulted within one result. -/
theorem analyzeDocument_language_tables_only
    (cfg₁ cfg₂ : String → Option LangTables) (title content L : String)
    (hdet : detectLanguage content = L) (hcfg : cfg₁ L = cfg₂ L) :
    (analyzeDocumentWith cfg₁ title content).language = L ∧
    analyzeDocumentWith cfg₁ title content =
      analyzeDocumentWith cfg₂ title content := by
  subst hdet
  constructor
  · unfold analyzeDocumentWith
    cases hc : cfg₁ (detectLanguage content) <;> simp [hc]
  · simp only [analyzeDocumentWith, hcfg]

/-- A configuration with the German spelling table installed for every
language except French, whose slot holds the French table. -/
def cfgA : String → Option LangTables :=
  fun l => if l = "french" then some ⟨frenchSpelling, [], []⟩
           else some ⟨germanSpelling, [], []⟩

/-- Like `cfgA` but with a different table in the French slot; the two
configurations agree on every language except French. -/
def cfgB : String → Option LangTables :=
  fun l => if l = "french" then some ⟨englishSpelling, [], []⟩
           else some ⟨germanSpelling, [], []⟩

/-- Witness for `analyzeDocument_language_tables_only`: the content `"und"`
is detected as german, and the two configurations differing only in their
French tables produce identical results for it. -/
theorem analyzeDocument_language_tables_only_witness :
    (analyzeDocumentWith cfgA "T" "und").language = "german" ∧
    analyzeDocumentWith cfgA "T" "und" = analyzeDocumentWith cfgB "T" "und" :=
  analyzeDocument_language_tables_only cfgA cfgB "T" "und" "german"
    (by decide) (by simp [cfgA, cfgB])

/-! ## Claim C10 -/

/-- C10: for every text whose detected language is german and whose lowercase
whitespace-split tokens include `dass`, the spelling findings drawn from the
German table contain the entry `{original := dass, corrected := dass}`,
because the table maps the correctly spelled `dass` to itself. -/
theorem german_dass_self_correction (content : String)
    (_hdet : detectLanguage content = "german")
    (hdass : (jsWords content).contains "dass" = true) :
    SpellingError.mk "dass" "dass" ∈
      analyzeSpelling content (spellingPatternsOf "german") := by
  have htbl : spellingPatternsOf "german" = germanSpelling := rfl
  rw [htbl]
  have hlow : jsLowerString "dass" = "dass" := rfl
  unfold germanSpelling
  simp only [analyzeSpelling, hlow, hdass]
  simp

/-- Witness for `german_dass_self_correction`: the content `"und dass"` is
detected as german and yields the `dass → dass` finding. -/
theorem german_dass_self_correction_witness :
    SpellingError.mk "dass" "dass" ∈
      analyzeSpelling "und dass" (spellingPatternsOf "german") :=
  german_dass_self_correction "und dass" (by decide) (by decide)
